import Mathlib

/-!
Verification development for the TRADEFORK monitoring core.

The definitions below are a shallow embedding of the Python source:

* trigger condition matching       — src/monitoring/trigger.py
* signal pipeline quota and judge  — src/monitoring/judge.py, fire_signal
* trade detection and close P&L    — src/exchange/trade_detector.py
* unfollowed-signal reconciliation — src/feedback/processor.py
* stream temperature lifecycle     — src/monitoring/base.py
* trigger auto-cleanup             — src/main.py (_trigger_cleanup_job)
* confidence parsing               — src/monitoring/judge.py (_parse_confidence)

Numbers are modelled as exact rationals (the source uses Python floats; the
formulas are carried over symbolically), instants as integer UTC epoch
seconds.  Python exceptions that the source catches and logs (every
per-trigger and per-connection loop body is wrapped in try/except) are
modelled by the neutral outcome the caller then takes, as noted at each site.
-/

namespace Tradefork

/-- Model of a Python/JSON value as it flows through the monitoring code.
A string carries, besides its text, the result that Python float() would
produce on it (some q when the text parses as a number, none when float()
would raise ValueError). -/
inductive PyVal where
  | num (q : ℚ)
  | pstr (s : String) (asNum : Option ℚ)
  | dict (entries : List (String × PyVal))
  | plist (items : List PyVal)
  | pnone
deriving Repr

/-- Python dict.get(k): first binding for the key, if any. -/
def pyGet (entries : List (String × PyVal)) (k : String) : Option PyVal :=
  (entries.find? (fun p => p.1 == k)).map (fun p => p.2)

/-- Python dict.get(k, default). -/
def pyGetD (entries : List (String × PyVal)) (k : String) (d : PyVal) : PyVal :=
  (pyGet entries k).getD d

/-- Result of Python float(v): a rational on success, none when float()
raises ValueError or TypeError (the source always guards the call with
try/except on exactly those two). -/
def pyFloat? : PyVal → Option ℚ
  | PyVal.num q => some q
  | PyVal.pstr _ a => a
  | _ => none

/-- Python truthiness of a value. -/
def pyTruthy : PyVal → Bool
  | PyVal.num q => q != 0
  | PyVal.pstr s _ => !s.isEmpty
  | PyVal.dict e => !e.isEmpty
  | PyVal.plist l => !l.isEmpty
  | PyVal.pnone => false

/-- Equality of a value with a string literal, as Python == evaluates it
(a non-string value never equals a string). -/
def pyStrEq (v : PyVal) (s : String) : Bool :=
  match v with
  | PyVal.pstr t _ => t == s
  | _ => false

/-- Interpolation of a value into an f-string.  For the string and None
cases this is Python str(); the printed form of containers and numbers is
irrelevant to every claim (conditions carry string symbols) and is fixed
arbitrarily here. -/
def pyFormat : PyVal → String
  | PyVal.pstr s _ => s
  | PyVal.num q => toString q
  | PyVal.pnone => "None"
  | PyVal.dict _ => "dict"
  | PyVal.plist _ => "list"

/-- Python iteration over a value: lists yield their items, strings their
characters, dicts their keys; iterating a number or None raises TypeError
(modelled as none). -/
def pyIter : PyVal → Option (List PyVal)
  | PyVal.plist l => some l
  | PyVal.pstr s _ => some (s.toList.map (fun c => PyVal.pstr (String.singleton c) Option.none))
  | PyVal.dict e => some (e.map (fun p => PyVal.pstr p.1 Option.none))
  | _ => none

/-- Substring test: pat occurs in s (Python "pat in s"; the empty pattern
always matches). -/
def strContains (s pat : String) : Bool :=
  pat.isEmpty || (s.splitOn pat).length != 1

/-- Python str.split(): split on whitespace runs, dropping empty pieces. -/
def pySplitWs (s : String) : List String :=
  (s.split (fun c => c.isWhitespace)).filter (fun x => !x.isEmpty)

/-- The _extract_number helper of trigger.py: a number read out of a dict
value, none when the input is not a dict, the key is absent, or float()
fails (the source checks val is None before calling float; float(None)
would fail anyway, so a single bind is equivalent). -/
def extractNumber (v : PyVal) (key : String) : Option ℚ :=
  match v with
  | PyVal.dict e => (pyGet e key).bind pyFloat?
  | _ => none

/-- Row of the user_triggers table (db/models.py), with the fields the
monitoring code reads. -/
structure UserTrigger where
  id : ℕ
  userId : ℕ
  triggerType : String
  condition : Option PyVal
  compositeLogic : Option String
  baseStreamsNeeded : Option PyVal
  evalPrompt : Option String
  description : String
  source : String
  isActive : Bool
  triggeredAt : Option ℤ
  createdAt : ℤ
deriving Repr

/-- Truthiness of trigger.composite_logic (None or the empty string is
falsy). -/
def compositeTruthy (t : UserTrigger) : Bool :=
  match t.compositeLogic with
  | some l => !l.isEmpty
  | Option.none => false

/-- Insert-or-overwrite into the variables map built by _check_composite
(Python dict assignment: the last write wins). -/
def upsertVar (vars : List (String × ℚ)) (k : String) (q : ℚ) : List (String × ℚ) :=
  (vars.filter (fun p => p.1 != k)) ++ [(k, q)]

/-- Variable bindings _check_composite extracts from one stream-info entry. -/
def bindStreamVars (data : List (String × PyVal)) (vars : List (String × ℚ))
    (streamInfo : PyVal) : List (String × ℚ) :=
  match streamInfo with
  | PyVal.dict info =>
      let st := pyGetD info "stream_type" (PyVal.pstr "" Option.none)
      let symRaw := (pyGet info "symbol").getD PyVal.pnone
      let sym := if pyTruthy symRaw then symRaw else pyGetD info "source" (PyVal.pstr "" Option.none)
      let key := pyFormat st ++ "/" ++ pyFormat sym
      match pyGetD data key (PyVal.dict []) with
      | PyVal.dict items =>
          items.foldl (fun acc p =>
            match pyFloat? p.2 with
            | some q => upsertVar acc (pyFormat st ++ "_" ++ p.1) q
            | Option.none => acc) vars
      | _ => vars
  | _ => vars

/-- The _check_composite matcher of trigger.py: bind variables from the
streams listed in base_streams_needed, then evaluate the minimal
comparison grammar lhs op rhs.  Exceptions (a non-iterable
base_streams_needed) are caught by the surrounding try and yield False. -/
def checkComposite (t : UserTrigger) (data : List (String × PyVal)) : Bool :=
  match t.compositeLogic with
  | Option.none => false
  | some logic =>
      if logic.isEmpty then false
      else
        let streams : Option (List PyVal) :=
          match t.baseStreamsNeeded with
          | Option.none => some []
          | some v => if pyTruthy v then pyIter v else some []
        match streams with
        | Option.none => false
        | some items =>
            let vars := items.foldl (bindStreamVars data) []
            if vars.isEmpty then false
            else
              match pySplitWs logic with
              | [l, op, r] =>
                  match (vars.find? (fun p => p.1 == l)), (vars.find? (fun p => p.1 == r)) with
                  | some lv, some rv =>
                      if op == ">" then decide (rv.2 < lv.2)
                      else if op == "<" then decide (lv.2 < rv.2)
                      else if op == ">=" then decide (rv.2 ≤ lv.2)
                      else if op == "<=" then decide (lv.2 ≤ rv.2)
                      else if op == "==" then decide (lv.2 = rv.2)
                      else false
                  | _, _ => false
              | _ => false

/-- Leaf-condition matching: the body of _check_condition after the
condition was established to be a non-empty dict.  Exceptions the source
would raise (keyword.lower() on a non-string, iterating a non-iterable
headlines container) are caught by evaluate_all and result in no firing,
modelled as False. -/
def checkLeaf (entries : List (String × PyVal)) (data : List (String × PyVal)) : Bool :=
  let condType := pyGetD entries "type" (PyVal.pstr "" Option.none)
  let symbol := pyGetD entries "symbol" (PyVal.pstr "" Option.none)
  if pyStrEq condType "news_keyword" then
    match pyGetD entries "keyword" (PyVal.pstr "" Option.none) with
    | PyVal.pstr kw _ =>
        let newsData := pyGetD data "news/all" (PyVal.dict [])
        let headlines :=
          match newsData with
          | PyVal.dict e => pyGetD e "headlines" (PyVal.plist [])
          | _ => PyVal.plist []
        match pyIter headlines with
        | some hs =>
            hs.any (fun h =>
              match h with
              | PyVal.pstr s _ => strContains s.toLower kw.toLower
              | _ => false)
        | Option.none => false
    | _ => false
  else
    match pyGet entries "value" with
    | Option.none => false
    | some PyVal.pnone => false
    | some rawValue =>
        match pyFloat? rawValue with
        | Option.none => false
        | some value =>
            let priceData := pyGetD data ("price/" ++ pyFormat symbol) (PyVal.dict [])
            let currentPrice := extractNumber priceData "last"
            if pyStrEq condType "price_above" then
              match currentPrice with
              | some p => decide (value ≤ p)
              | Option.none => false
            else if pyStrEq condType "price_below" then
              match currentPrice with
              | some p => decide (p ≤ value)
              | Option.none => false
            else if pyStrEq condType "funding_above" then
              match extractNumber (pyGetD data ("funding/" ++ pyFormat symbol) (PyVal.dict [])) "rate" with
              | some r => decide (value ≤ r)
              | Option.none => false
            else if pyStrEq condType "funding_below" then
              match extractNumber (pyGetD data ("funding/" ++ pyFormat symbol) (PyVal.dict [])) "rate" with
              | some r => decide (r ≤ value)
              | Option.none => false
            else if pyStrEq condType "volume_spike" then
              match extractNumber priceData "volume_ratio" with
              | some r => decide (value ≤ r)
              | Option.none => false
            else if pyStrEq condType "oi_change" then
              match extractNumber (pyGetD data ("oi/" ++ pyFormat symbol) (PyVal.dict [])) "change_pct" with
              | some c => decide (value ≤ |c|)
              | Option.none => false
            else if pyStrEq condType "kimchi_premium" then
              match extractNumber (pyGetD data "spread/kimchi" (PyVal.dict [])) "premium_pct" with
              | some p => decide (value ≤ p)
              | Option.none => false
            else false

/-- The _check_condition dispatcher of trigger.py: a non-empty dict
condition goes through the leaf matcher; anything else (None, a falsy or
non-dict condition) falls back to the composite matcher when
composite_logic is truthy, else no match. -/
def checkCondition (t : UserTrigger) (data : List (String × PyVal)) : Bool :=
  match t.condition with
  | some (PyVal.dict entries) =>
      if entries.isEmpty then
        (if compositeTruthy t then checkComposite t data else false)
      else checkLeaf entries data
  | some _ =>
      (if compositeTruthy t then checkComposite t data else false)
  | Option.none =>
      (if compositeTruthy t then checkComposite t data else false)

/-! Signal pipeline (judge.py, fire_signal) -/

/-- Daily signal quota, config.py PRO_DAILY_SIGNAL_LIMIT. -/
def PRO_DAILY_SIGNAL_LIMIT : ℕ := 5

/-- UTC calendar day of an epoch instant (both compared datetimes are UTC,
so .date() comparison is day-number comparison). -/
def dayOf (t : ℤ) : ℤ := t / 86400

/-- Row of the users table, with the fields the signal pipeline reads. -/
structure User where
  id : ℕ
  telegramId : ℕ
  dailySignalCount : ℕ
  dailySignalResetAt : Option ℤ
  isActive : Bool
  lastActiveAt : Option ℤ
deriving Repr, DecidableEq

/-- Row of the signals table, with the fields the claims mention. -/
structure Signal where
  id : ℕ
  userId : ℕ
  signalType : String
  symbol : Option String
  direction : Option String
  confidence : ℚ
  tradeFollowed : Option Bool
  createdAt : ℤ
deriving Repr, DecidableEq

/-- Structured result of parsing the judge LLM response
(_parse_judge_response). -/
structure ParsedSignal where
  signalType : String
  direction : String
  confidence : ℚ
  symbol : Option String
deriving Repr, DecidableEq

/-- Observable steps of one fire_signal / judge_signal run, in the order
the source performs them. -/
inductive PipeEvent where
  | interimMessage
  | collectDeep
  | quotaCheck
  | quotaNotice
  | llmJudge
  | signalPersisted
  | countIncremented
  | assistantMessage
  | episodeCreated
deriving Repr, DecidableEq

/-- Reset step of _check_signal_limit: a reset timestamp whose date is
before today zeroes the count and moves the timestamp to now; an unset
timestamp is initialised to now. -/
def resetIfNewDay (u : User) (now : ℤ) : User :=
  match u.dailySignalResetAt with
  | some r =>
      if dayOf r < dayOf now then
        { u with dailySignalCount := 0, dailySignalResetAt := some now }
      else u
  | Option.none => { u with dailySignalResetAt := some now }

/-- The _check_signal_limit helper of judge.py: mutate the user per
resetIfNewDay, then report whether the count is still under the limit. -/
def checkSignalLimit (u : User) (now : ℤ) : User × Bool :=
  let u1 := resetIfNewDay u now
  (u1, decide (u1.dailySignalCount < PRO_DAILY_SIGNAL_LIMIT))

/-- Signal row persisted by judge_signal from a parsed response. -/
def mkSignalRow (u : User) (p : ParsedSignal) (now : ℤ) (newId : ℕ) : Signal :=
  { id := newId
    userId := u.id
    signalType := p.signalType
    symbol := p.symbol
    direction := some p.direction
    confidence := p.confidence
    tradeFollowed := Option.none
    createdAt := now }

/-- Outcome of one judge_signal call. -/
structure JudgeResult where
  user : User
  signal : Option Signal
  events : List PipeEvent
deriving Repr, DecidableEq

/-- The judge_signal entry point of judge.py: quota check first (over
quota sends a notice and returns without a Signal row and without
touching the count), then the deep-LLM judge (whose failure, llm = none,
also returns nothing), then Signal persistence, count increment,
assistant message and episode. -/
def judgeSignal (u : User) (now : ℤ) (llm : Option ParsedSignal) (newId : ℕ) : JudgeResult :=
  let u1 := resetIfNewDay u now
  if PRO_DAILY_SIGNAL_LIMIT ≤ u1.dailySignalCount then
    { user := u1, signal := Option.none, events := [PipeEvent.quotaCheck, PipeEvent.quotaNotice] }
  else
    match llm with
    | Option.none =>
        { user := u1, signal := Option.none, events := [PipeEvent.quotaCheck, PipeEvent.llmJudge] }
    | some p =>
        { user := { u1 with dailySignalCount := u1.dailySignalCount + 1 }
          signal := some (mkSignalRow u1 p now newId)
          events := [PipeEvent.quotaCheck, PipeEvent.llmJudge, PipeEvent.signalPersisted,
                     PipeEvent.countIncremented, PipeEvent.assistantMessage,
                     PipeEvent.episodeCreated] }

/-- Outcome of one fire_signal call. -/
structure FireResult where
  trigger : UserTrigger
  user : User
  signal : Option Signal
  events : List PipeEvent
deriving Repr

/-- The fire_signal entry point of trigger.py: set triggered_at (is_active
is left untouched), emit the interim analysing message, run Tier-2
collection (collectOk = false models the caught collect_deep failure,
which returns early), then hand over to judge_signal.  No branch of the
source ever clears is_active on the trigger. -/
def fireSignal (t : UserTrigger) (u : User) (now : ℤ) (collectOk : Bool)
    (llm : Option ParsedSignal) (newId : ℕ) : FireResult :=
  let t1 := { t with triggeredAt := some now }
  if collectOk then
    let jr := judgeSignal u now llm newId
    { trigger := t1, user := jr.user, signal := jr.signal
      events := PipeEvent.interimMessage :: PipeEvent.collectDeep :: jr.events }
  else
    { trigger := t1, user := u, signal := Option.none
      events := [PipeEvent.interimMessage, PipeEvent.collectDeep] }

/-- The fire_alert entry point of trigger.py: the alert is deactivated and
stamped, the message is persisted and sent. -/
def fireAlert (t : UserTrigger) (now : ℤ) : UserTrigger :=
  { t with isActive := false, triggeredAt := some now }

/-! Confidence parsing (judge.py _parse_confidence) -/

/-- Result of _parse_confidence. -/
structure ConfResult where
  confidence : ℚ
  confidenceStyle : Option ℚ
  confidenceHistory : Option ℚ
  confidenceMarket : Option ℚ
deriving Repr, DecidableEq

/-- The _parse_confidence helper: a dict yields the three axes (each
defaulting to 0.5 when absent) and their weighted mean 0.3/0.3/0.4; any
other value goes through float() (falsy input means 0.5, a value above 1
is divided by 100).  A none result models the ValueError the caller
catches to fall back to heuristic extraction. -/
def parseConfidence (raw : PyVal) : Option ConfResult :=
  match raw with
  | PyVal.dict entries => do
      let style ← pyFloat? (pyGetD entries "style_match" (PyVal.num (1/2)))
      let history ← pyFloat? (pyGetD entries "historical_similar" (PyVal.num (1/2)))
      let market ← pyFloat? (pyGetD entries "market_context" (PyVal.num (1/2)))
      let overall := style * (3/10) + history * (3/10) + market * (2/5)
      pure { confidence := overall, confidenceStyle := some style
             confidenceHistory := some history, confidenceMarket := some market }
  | v =>
      if !pyTruthy v then
        some { confidence := 1/2, confidenceStyle := Option.none
               confidenceHistory := Option.none, confidenceMarket := Option.none }
      else
        (pyFloat? v).map (fun q =>
          let q := if 1 < q then q / 100 else q
          { confidence := q, confidenceStyle := Option.none
            confidenceHistory := Option.none, confidenceMarket := Option.none })

/-! Trade detector (exchange/trade_detector.py) -/

/-- Dust threshold, config.py DUST_THRESHOLD_PERCENT (percent of the total
balance value). -/
def DUST_THRESHOLD_PERCENT : ℚ := 1

/-- A normalised exchange order as the detector reads it: cost is the
top-level cost field when present; the info sub-dict carries the exchange
raw payload the fallback resolution looks into.  Numeric-looking raw
fields are modelled by their Python truthiness together with the value
float() yields on them. -/
structure RawNum where
  truthy : Bool
  asFloat : ℚ
deriving Repr, DecidableEq

/-- Polled order record. -/
structure ExOrder where
  symbol : String
  side : String
  amount : Option ℚ
  cost : Option ℚ
  timestampMs : ℤ
  orderType : Option String
  infoExecutedFunds : Option RawNum
  infoCumQuote : Option RawNum
  infoType : Option String
deriving Repr, DecidableEq

/-- Cost resolution at the top of _is_dust_trade (and handle_new_trade):
trade.get("cost") or 0 — a falsy cost falls back to
float(info.executed_funds or info.cummulativeQuoteQty or 0). -/
def resolveCost (o : ExOrder) : ℚ :=
  let fallback :=
    match o.infoExecutedFunds with
    | some r =>
        if r.truthy then r.asFloat
        else
          match o.infoCumQuote with
          | some r2 => if r2.truthy then r2.asFloat else 0
          | Option.none => 0
    | Option.none =>
        match o.infoCumQuote with
        | some r2 => if r2.truthy then r2.asFloat else 0
        | Option.none => 0
  match o.cost with
  | some c => if c ≠ 0 then c else fallback
  | Option.none => fallback

/-- The _is_dust_trade filter: a non-positive total balance value or a
non-positive resolved cost is dust outright; otherwise the order is dust
when its cost is under DUST_THRESHOLD_PERCENT of the total. -/
def isDustTrade (o : ExOrder) (totalBalanceValue : ℚ) : Bool :=
  let cost := resolveCost o
  if totalBalanceValue ≤ 0 ∨ cost ≤ 0 then true
  else decide (cost / totalBalanceValue * 100 < DUST_THRESHOLD_PERCENT)

/-- The _is_deposit_or_withdrawal filter. -/
def isDepositOrWithdrawal (o : ExOrder) : Bool :=
  let t := ((o.orderType.getD "").toLower)
  if t == "deposit" || t == "withdrawal" || t == "transfer" then true
  else
    match o.infoType with
    | some it => it == "deposit" || it == "withdrawal"
    | Option.none => false

/-- Total balance value computed in poll_trades: the sum of the truthy
numeric entries of balance["total"]; a failed fetch_balance (none) is
caught and the total set to 0. -/
def totalBalanceValue (balance : Option (List (String × PyVal))) : ℚ :=
  match balance with
  | Option.none => 0
  | some entries =>
      (entries.map (fun p =>
        match p.2 with
        | PyVal.num q => if q ≠ 0 then q else 0
        | _ => 0)).sum

/-- Decision poll_trades takes on one polled order, in source order:
stale-timestamp skip, transfer skip, dust skip, else handle_new_trade. -/
inductive OrderDecision where
  | skipOld
  | skipTransfer
  | skipDust
  | process
deriving Repr, DecidableEq

/-- Per-order classification inside the poll_trades loop. -/
def orderDecision (sinceMs : ℤ) (total : ℚ) (o : ExOrder) : OrderDecision :=
  if o.timestampMs ≤ sinceMs then OrderDecision.skipOld
  else if isDepositOrWithdrawal o then OrderDecision.skipTransfer
  else if isDustTrade o total then OrderDecision.skipDust
  else OrderDecision.process

/-- Orders of one sweep that reach handle_new_trade (and hence can produce
a Trade row and a reasoning message); all others are skipped. -/
def pollProcessedOrders (sinceMs : ℤ) (total : ℚ) (orders : List ExOrder) : List ExOrder :=
  orders.filter (fun o => orderDecision sinceMs total o == OrderDecision.process)

/-- Start of the poll window in poll_trades:
last_checked = conn.last_checked_at or (now - 5 minutes).  The source
takes the stored timestamp whenever it is set; it does not clamp it to
the last five minutes. -/
def pollSince (lastCheckedAt : Option ℤ) (now : ℤ) : ℤ :=
  lastCheckedAt.getD (now - 300)

/-- Poll-window start as the specification words it:
since = max(connection.last_polled_at, now - 5 min).  Kept separate from
pollSince (the source) for comparison. -/
def specPollSince (lastPolledAt : ℤ) (now : ℤ) : ℤ :=
  max lastPolledAt (now - 300)

/-- Row of the trades table, with the fields close detection touches. -/
structure Trade where
  id : ℕ
  userId : ℕ
  exchange : String
  symbol : String
  side : String
  entryPrice : ℚ
  exitPrice : Option ℚ
  size : ℚ
  pnlPercent : Option ℚ
  pnlAmount : Option ℚ
  status : String
  openedAt : ℤ
  closedAt : Option ℤ
deriving Repr, DecidableEq

/-- P&L percentage computed by detect_closed_trades once a position is
judged closed: with a truthy exit price and entry price, long/buy gets
(exit - entry) / entry * 100 and every other side (short/sell) gets
(entry - exit) / entry * 100; otherwise 0. -/
def closePnlPercent (side : String) (entryPrice exitPrice : ℚ) : ℚ :=
  if exitPrice ≠ 0 ∧ entryPrice ≠ 0 then
    if side == "buy" || side == "long" then
      (exitPrice - entryPrice) / entryPrice * 100
    else
      (entryPrice - exitPrice) / entryPrice * 100
  else 0

/-- The Trade mutation of handle_trade_close: status closed, exit price,
the P&L percentage passed in, pnl_amount = (exit - entry) * size when
exit and entry are truthy, and the close timestamp. -/
def handleTradeClose (t : Trade) (pnlPercent exitPrice : ℚ) (now : ℤ) : Trade :=
  { t with
    status := "closed"
    exitPrice := some exitPrice
    pnlPercent := some pnlPercent
    pnlAmount := some (if exitPrice ≠ 0 ∧ t.entryPrice ≠ 0
                       then (exitPrice - t.entryPrice) * t.size else 0)
    closedAt := some now }

/-! Unfollowed-signal reconciliation (feedback/processor.py) -/

/-- Row of the episodes table, with the fields the reconciliation claim
mentions (the result tag is stored inside the trade_data payload of the
created episode). -/
structure Episode where
  userId : ℕ
  episodeType : String
  signalId : ℕ
  result : String
deriving Repr, DecidableEq

/-- Eligibility filter of check_unfollowed_signals: the user's
trade_signal rows with trade_followed still unset, created strictly more
than 24 hours ago. -/
def unfollowedEligible (userId : ℕ) (now : ℤ) (s : Signal) : Bool :=
  s.userId == userId && s.signalType == "trade_signal"
    && s.tradeFollowed == Option.none && decide (s.createdAt < now - 86400)

/-- Feedback episode created for one unfollowed signal. -/
def mkUnfollowedEpisode (s : Signal) : Episode :=
  { userId := s.userId, episodeType := "feedback", signalId := s.id, result := "unfollowed" }

/-- The check_unfollowed_signals sweep (called once per Patrol cycle):
every eligible signal gets trade_followed = false and one feedback
episode recording the unfollowed result. -/
def checkUnfollowedSignals (sigs : List Signal) (userId : ℕ) (now : ℤ) :
    List Signal × List Episode :=
  (sigs.map (fun s =>
      if unfollowedEligible userId now s then { s with tradeFollowed := some false } else s),
   (sigs.filter (unfollowedEligible userId now)).map mkUnfollowedEpisode)

/-! Trigger auto-cleanup (main.py _trigger_cleanup_job) -/

/-- Cleanup of one trigger row: system-created (llm_auto or patrol),
still active, never fired, created more than 72 hours ago means
deactivate; everything else is untouched. -/
def cleanupOne (now : ℤ) (t : UserTrigger) : UserTrigger :=
  if (t.source == "llm_auto" || t.source == "patrol") && t.isActive
      && t.triggeredAt == Option.none && decide (t.createdAt < now - 259200) then
    { t with isActive := false }
  else t

/-- One trigger-cleanup tick over the trigger table. -/
def triggerCleanup (ts : List UserTrigger) (now : ℤ) : List UserTrigger :=
  ts.map (cleanupOne now)

/-! Stream temperature lifecycle (monitoring/base.py) -/

/-- Temperature thresholds in seconds, config.py HOT_THRESHOLD_DAYS = 7
and WARM_THRESHOLD_DAYS = 30. -/
def hotThresholdSecs : ℤ := 7 * 86400

def warmThresholdSecs : ℤ := 30 * 86400

/-- Stream temperature (the column holds one of exactly these three
values). -/
inductive Temp where
  | hot
  | warm
  | cold
deriving Repr, DecidableEq

/-- Row of the base_streams table, with the fields the lifecycle touches. -/
structure BaseStream where
  id : ℕ
  userId : ℕ
  streamType : String
  symbol : Option String
  temperature : Temp
  lastMentionedAt : ℤ
deriving Repr, DecidableEq

/-- The update_temperature entry point (touch on re-mention): every stream
of the user with the mentioned symbol becomes hot with
last_mentioned_at = now. -/
def updateTemperature (streams : List BaseStream) (userId : ℕ) (symbol : String)
    (now : ℤ) : List BaseStream :=
  streams.map (fun s =>
    if s.userId == userId && s.symbol == some symbol then
      { s with temperature := Temp.hot, lastMentionedAt := now }
    else s)

/-- First pass of auto_transition_temperatures: hot streams unmentioned
for more than HOT_THRESHOLD_DAYS become warm. -/
def transitionHotToWarm (now : ℤ) (s : BaseStream) : BaseStream :=
  if s.temperature = Temp.hot ∧ s.lastMentionedAt < now - hotThresholdSecs then
    { s with temperature := Temp.warm }
  else s

/-- Second pass of auto_transition_temperatures: warm streams unmentioned
for more than WARM_THRESHOLD_DAYS become cold.  The session autoflushes
the first pass before the second query runs, so a stream demoted to warm
in the same call is visible here. -/
def transitionWarmToCold (now : ℤ) (s : BaseStream) : BaseStream :=
  if s.temperature = Temp.warm ∧ s.lastMentionedAt < now - warmThresholdSecs then
    { s with temperature := Temp.cold }
  else s

/-- The auto_transition_temperatures entry point for one user. -/
def autoTransition (streams : List BaseStream) (userId : ℕ) (now : ℤ) : List BaseStream :=
  streams.map (fun s =>
    if s.userId == userId then transitionWarmToCold now (transitionHotToWarm now s) else s)

/-! Concrete sample rows used by witnesses and counterexamples. -/

def exAlertTrigger : UserTrigger :=
  { id := 1, userId := 1, triggerType := "alert"
    condition := some (PyVal.dict
      [("type", PyVal.pstr "price_above" Option.none),
       ("symbol", PyVal.pstr "BTC" Option.none),
       ("value", PyVal.num 100000)])
    compositeLogic := Option.none, baseStreamsNeeded := Option.none
    evalPrompt := Option.none, description := "btc alert", source := "user_request"
    isActive := true, triggeredAt := Option.none, createdAt := 0 }

def exSignalTrigger : UserTrigger :=
  { exAlertTrigger with id := 2, triggerType := "signal", description := "btc signal" }

def exStaleTrigger : UserTrigger :=
  { exAlertTrigger with
    id := 3
    triggerType := "llm_evaluated"
    condition := Option.none
    evalPrompt := some "evaluate"
    source := "patrol"
    description := "auto" }

def exUser : User :=
  { id := 1, telegramId := 11, dailySignalCount := 0
    dailySignalResetAt := some 0, isActive := true, lastActiveAt := Option.none }

def exQuotaUser : User :=
  { exUser with
    id := 2
    telegramId := 12
    dailySignalCount := 5
    dailySignalResetAt := some 4300000 }

def exParsed : ParsedSignal :=
  { signalType := "trade_signal", direction := "long", confidence := 71/100
    symbol := some "BTC" }

def exOpenTrade : Trade :=
  { id := 1, userId := 1, exchange := "binance", symbol := "SOL/USDT", side := "buy"
    entryPrice := 150, exitPrice := Option.none, size := 10
    pnlPercent := Option.none, pnlAmount := Option.none, status := "open"
    openedAt := 1000, closedAt := Option.none }

def exBriefingSignal : Signal :=
  { id := 7, userId := 1, signalType := "briefing", symbol := some "ETH"
    direction := some "short", confidence := 1, tradeFollowed := Option.none
    createdAt := 0 }

def exUnfollowedSignal : Signal :=
  { exBriefingSignal with id := 9, signalType := "trade_signal" }

def exAgedStream : BaseStream :=
  { id := 1, userId := 1, streamType := "price", symbol := some "BTC"
    temperature := Temp.hot, lastMentionedAt := 4320000 }

def exZeroOrder : ExOrder :=
  { symbol := "BTC/USDT", side := "buy", amount := some 1, cost := Option.none
    timestampMs := 10000, orderType := Option.none
    infoExecutedFunds := Option.none, infoCumQuote := Option.none
    infoType := Option.none }

def exHotData : List (String × PyVal) :=
  [("price/BTC", PyVal.dict [("last", PyVal.num 100000)])]

/-! Claim theorems. -/

/-- Claim C6 (counterexample): with a last-poll timestamp two hours old
(now = 100000, last_checked_at = 92800), poll_trades starts the window at
92800, not at the five-minute clamp max(92800, 99700) = 99700 the claim
states. -/
theorem poll_window_clamp_cex :
    pollSince (some 92800) 100000 = 92800 ∧
    specPollSince 92800 100000 = 99700 ∧
    pollSince (some 92800) 100000 ≠ specPollSince 92800 100000 := by
  refine ⟨rfl, by decide, by decide⟩

/-- Claim C6 (amended): the trade-poll window starts at
connection.last_polled_at whenever that timestamp is set — even when it
is older than five minutes — and only an unset timestamp falls back to
now − 5 min. -/
theorem poll_window_semantics (l now : ℤ) :
    pollSince (some l) now = l ∧ pollSince Option.none now = now - 300 :=
  ⟨rfl, rfl⟩

/-- Claim C7: after one trigger-cleanup tick, every trigger in the table
with source llm_auto or patrol that never fired (triggered_at unset) and
was created more than 72 hours ago is inactive, and a user_request
trigger is never touched by the tick. -/
theorem trigger_cleanup_semantics (now : ℤ) (ts : List UserTrigger) :
    (∀ t ∈ triggerCleanup ts now,
        (t.source = "llm_auto" ∨ t.source = "patrol") → t.triggeredAt = Option.none →
        t.createdAt < now - 259200 → t.isActive = false) ∧
    (∀ t ∈ ts, t.source = "user_request" → (cleanupOne now t).isActive = t.isActive) := by
  constructor
  · intro t ht h1 h2 h3
    simp only [triggerCleanup, List.mem_map] at ht
    obtain ⟨t0, _, rfl⟩ := ht
    by_cases hg : ((t0.source == "llm_auto" || t0.source == "patrol") && t0.isActive
        && (t0.triggeredAt == Option.none) && decide (t0.createdAt < now - 259200)) = true
    · simp [cleanupOne, hg]
    · have hres : cleanupOne now t0 = t0 := by simp [cleanupOne, hg]
      rw [hres] at h1 h2 h3 ⊢
      by_cases hact : t0.isActive = true
      · exfalso
        apply hg
        rcases h1 with h | h <;> simp [h, hact, h2, h3]
      · simp only [Bool.not_eq_true] at hact
        exact hact
  · intro t _ hsrc
    have hg : (t.source == "llm_auto" || t.source == "patrol") = false := by
      simp [hsrc]
    simp [cleanupOne, hg]

/-- Claim C7 (witness): a patrol-created trigger from t = 0 that never
fired is inactive after the cleanup tick at t = 300000 s (more than
72 h later). -/
theorem trigger_cleanup_semantics_witness :
    (cleanupOne 300000 exStaleTrigger).isActive = false :=
  (trigger_cleanup_semantics 300000 [exStaleTrigger]).1 (cleanupOne 300000 exStaleTrigger)
    (List.mem_singleton.mpr rfl) (Or.inr (by decide)) (by decide) (by decide)

/-- Claim C9: when the parsed confidence dict carries all three axes as
numbers s, h, m, _parse_confidence returns overall
0.3·s + 0.3·h + 0.4·m together with the three axes, and for axes in
[0, 1] the overall value stays in [0, 1]. -/
theorem confidence_aggregation (entries : List (String × PyVal)) (s h m : ℚ)
    (hs : pyGet entries "style_match" = some (PyVal.num s))
    (hh : pyGet entries "historical_similar" = some (PyVal.num h))
    (hm : pyGet entries "market_context" = some (PyVal.num m)) :
    parseConfidence (PyVal.dict entries)
      = some { confidence := 0.3 * s + 0.3 * h + 0.4 * m
               confidenceStyle := some s, confidenceHistory := some h
               confidenceMarket := some m } ∧
    (0 ≤ s → s ≤ 1 → 0 ≤ h → h ≤ 1 → 0 ≤ m → m ≤ 1 →
      0 ≤ 0.3 * s + 0.3 * h + 0.4 * m ∧ 0.3 * s + 0.3 * h + 0.4 * m ≤ 1) := by
  constructor
  · have hq : s * (3/10) + h * (3/10) + m * (2/5) = 0.3 * s + 0.3 * h + 0.4 * m := by
      rw [show (0.3 : ℚ) = 3/10 by norm_num, show (0.4 : ℚ) = 2/5 by norm_num]
      ring
    simp only [parseConfidence, pyGetD, hs, hh, hm, Option.getD_some, pyFloat?,
      Option.bind_eq_bind, Option.some_bind]
    exact congrArg (fun q => some (ConfResult.mk q (some s) (some h) (some m))) hq
  · intro h1 h2 h3 h4 h5 h6
    constructor <;> nlinarith

/-- Claim C9 (witness): axes 0.7 / 0.6 / 0.8 aggregate to 0.71 and stay
inside [0, 1]. -/
theorem confidence_aggregation_witness :
    parseConfidence (PyVal.dict
        [("style_match", PyVal.num (7/10)),
         ("historical_similar", PyVal.num (3/5)),
         ("market_context", PyVal.num (4/5))])
      = some { confidence := 0.3 * (7/10) + 0.3 * (3/5) + 0.4 * (4/5)
               confidenceStyle := some (7/10), confidenceHistory := some (3/5)
               confidenceMarket := some (4/5) } ∧
    (0 : ℚ) ≤ 0.3 * (7/10) + 0.3 * (3/5) + 0.4 * (4/5) ∧
    (0.3 * (7/10) + 0.3 * (3/5) + 0.4 * (4/5) : ℚ) ≤ 1 := by
  have h := confidence_aggregation
    [("style_match", PyVal.num (7/10)),
     ("historical_similar", PyVal.num (3/5)),
     ("market_context", PyVal.num (4/5))] (7/10) (3/5) (4/5) rfl rfl rfl
  exact ⟨h.1, (h.2 (by norm_num) (by norm_num) (by norm_num) (by norm_num)
    (by norm_num) (by norm_num)).1,
    (h.2 (by norm_num) (by norm_num) (by norm_num) (by norm_num)
    (by norm_num) (by norm_num)).2⟩

/-- Sign helper: a scaled quotient with a positive denominator is positive
exactly when its numerator is. -/
lemma pnl_sign_pos (x en : ℚ) (hen : 0 < en) : 0 < x / en * 100 ↔ 0 < x := by
  constructor
  · intro hp
    have ht : 0 < x / en := by linarith
    have := mul_pos ht hen
    rwa [div_mul_cancel₀ x (ne_of_gt hen)] at this
  · intro hx
    have := div_pos hx hen
    linarith

/-- Sign helper: a scaled quotient with a positive denominator is negative
exactly when its numerator is. -/
lemma pnl_sign_neg (x en : ℚ) (hen : 0 < en) : x / en * 100 < 0 ↔ x < 0 := by
  constructor
  · intro hp
    have ht : x / en < 0 := by linarith
    have := mul_neg_of_neg_of_pos ht hen
    rwa [div_mul_cancel₀ x (ne_of_gt hen)] at this
  · intro hx
    have := div_neg_of_neg_of_pos hx hen
    linarith

/-- Claim C3 (counterexample): for a buy closed at entry 150 and exit 165
the code stores pnl_percent = 10 (a percentage), not the claimed ratio
(165 − 150)/150 = 1/10. -/
theorem close_pnl_percent_scaling_cex :
    closePnlPercent "buy" 150 165 = 10 ∧ ((165 - 150 : ℚ) / 150 = 1/10) ∧
    closePnlPercent "buy" 150 165 ≠ (165 - 150 : ℚ) / 150 := by
  refine ⟨by norm_num [closePnlPercent], by norm_num, by norm_num [closePnlPercent]⟩

/-- Claim C3 (amended): for a close with truthy (non-zero) exit and entry
prices, pnl_percent = 100·(exit−entry)/entry for side long/buy and
100·(entry−exit)/entry for side short/sell, pnl_amount =
(exit−entry)·size, and (for a positive entry price) pnl_percent has the
sign of exit−entry for long/buy and the opposite sign for short/sell. -/
theorem close_pnl_formulas (t : Trade) (exitP pnl : ℚ) (now : ℤ)
    (hentry : t.entryPrice ≠ 0) (hexit : exitP ≠ 0) :
    ((t.side = "long" ∨ t.side = "buy") →
        closePnlPercent t.side t.entryPrice exitP = 100 * (exitP - t.entryPrice) / t.entryPrice) ∧
    ((t.side = "short" ∨ t.side = "sell") →
        closePnlPercent t.side t.entryPrice exitP = 100 * (t.entryPrice - exitP) / t.entryPrice) ∧
    (handleTradeClose t pnl exitP now).pnlAmount = some ((exitP - t.entryPrice) * t.size) ∧
    (handleTradeClose t pnl exitP now).status = "closed" ∧
    (0 < t.entryPrice →
      ((t.side = "long" ∨ t.side = "buy") →
        (0 < closePnlPercent t.side t.entryPrice exitP ↔ t.entryPrice < exitP) ∧
        (closePnlPercent t.side t.entryPrice exitP < 0 ↔ exitP < t.entryPrice)) ∧
      ((t.side = "short" ∨ t.side = "sell") →
        (0 < closePnlPercent t.side t.entryPrice exitP ↔ exitP < t.entryPrice) ∧
        (closePnlPercent t.side t.entryPrice exitP < 0 ↔ t.entryPrice < exitP))) := by
  have hlong : ∀ hs : t.side = "long" ∨ t.side = "buy",
      closePnlPercent t.side t.entryPrice exitP
        = (exitP - t.entryPrice) / t.entryPrice * 100 := by
    intro hs
    rcases hs with h | h <;> simp [closePnlPercent, h, hentry, hexit]
  have hshort : ∀ hs : t.side = "short" ∨ t.side = "sell",
      closePnlPercent t.side t.entryPrice exitP
        = (t.entryPrice - exitP) / t.entryPrice * 100 := by
    intro hs
    rcases hs with h | h <;> simp [closePnlPercent, h, hentry, hexit]
  refine ⟨fun hs => by rw [hlong hs]; ring,
          fun hs => by rw [hshort hs]; ring,
          by simp [handleTradeClose, hentry, hexit],
          by simp [handleTradeClose],
          fun hpos => ⟨fun hs => ?_, fun hs => ?_⟩⟩
  · rw [hlong hs]
    constructor
    · rw [pnl_sign_pos _ _ hpos]
      exact sub_pos
    · rw [pnl_sign_neg _ _ hpos]
      exact sub_neg
  · rw [hshort hs]
    constructor
    · rw [pnl_sign_pos _ _ hpos]
      exact sub_pos
    · rw [pnl_sign_neg _ _ hpos]
      exact sub_neg

/-- Claim C3 (witness): the sample buy trade (entry 150, size 10) closed
at 165 gets pnl_percent 100·(165−150)/150 = 10 and pnl_amount
(165−150)·10 = 150. -/
theorem close_pnl_formulas_witness :
    closePnlPercent "buy" 150 165 = 100 * (165 - 150) / 150 ∧
    (handleTradeClose exOpenTrade 10 165 7000).pnlAmount = some ((165 - 150) * 10) := by
  have h := close_pnl_formulas exOpenTrade 165 10 7000 (by norm_num [exOpenTrade]) (by norm_num)
  exact ⟨h.1 (Or.inr rfl), h.2.2.1⟩

/-- Claim C10: an order whose resolved cost is non-positive, or a sweep
whose total balance value is non-positive (which is what a failed balance
fetch produces, the total being set to 0), is classified as dust by
_is_dust_trade and never reaches handle_new_trade, so it yields no Trade
row and no reasoning message in that cycle. -/
theorem dust_gate_semantics (o : ExOrder) (sinceMs : ℤ) (orders : List ExOrder) :
    (∀ total : ℚ, resolveCost o ≤ 0 ∨ total ≤ 0 → isDustTrade o total = true) ∧
    (∀ total : ℚ, resolveCost o ≤ 0 ∨ total ≤ 0 →
        orderDecision sinceMs total o ≠ OrderDecision.process) ∧
    totalBalanceValue Option.none = 0 ∧
    (∀ total : ℚ, total ≤ 0 → pollProcessedOrders sinceMs total orders = []) := by
  have hdust : ∀ (o2 : ExOrder) (total : ℚ), resolveCost o2 ≤ 0 ∨ total ≤ 0 →
      isDustTrade o2 total = true := by
    intro o2 total hc
    have : total ≤ 0 ∨ resolveCost o2 ≤ 0 := hc.symm
    simp [isDustTrade, this]
  have hdec : ∀ (o2 : ExOrder) (total : ℚ), resolveCost o2 ≤ 0 ∨ total ≤ 0 →
      orderDecision sinceMs total o2 ≠ OrderDecision.process := by
    intro o2 total hc
    unfold orderDecision
    split_ifs with h1 h2 h3
    · simp
    · simp
    · simp
    · exact absurd (hdust o2 total hc) (by simp [h3])
  refine ⟨hdust o, hdec o, rfl, ?_⟩
  intro total htot
  apply List.filter_eq_nil_iff.mpr
  intro o2 _
  simp only [beq_iff_eq]
  exact hdec o2 total (Or.inr htot)

/-- Claim C10 (witness): the sample order with no usable cost fields
resolves to cost 0, is dust against a healthy 30000 balance, and a sweep
whose balance fetch failed (total 0) processes no orders at all. -/
theorem dust_gate_semantics_witness :
    isDustTrade exZeroOrder 30000 = true ∧
    pollProcessedOrders 0 (totalBalanceValue Option.none) [exZeroOrder] = [] := by
  have h := dust_gate_semantics exZeroOrder 0 [exZeroOrder]
  exact ⟨h.1 30000 (Or.inl (by decide)), by
    rw [h.2.2.1]
    exact h.2.2.2 0 le_rfl⟩

/-- Counting helper: in a list of signals with pairwise distinct ids, a
predicate that forces the id of the distinguished member holds exactly
once. -/
lemma countP_eq_one_of_key (l : List Signal) (s : Signal) (p : Signal → Bool)
    (hmem : s ∈ l) (hnd : (l.map Signal.id).Nodup) (hps : p s = true)
    (hkey : ∀ x, p x = true → x.id = s.id) : l.countP p = 1 := by
  induction l with
  | nil => cases hmem
  | cons a tl ih =>
      rw [List.map_cons, List.nodup_cons] at hnd
      rcases List.mem_cons.mp hmem with rfl | hmem2
      · rw [List.countP_cons_of_pos _ _ hps]
        have hz : tl.countP p = 0 := by
          rw [List.countP_eq_zero]
          intro x hx hpx
          exact hnd.1 (hkey x hpx ▸ List.mem_map_of_mem Signal.id hx)
        omega
      · have hpa : p a = false := by
          by_contra hpa
          rw [Bool.not_eq_false] at hpa
          exact hnd.1 ((hkey a hpa).symm ▸ List.mem_map_of_mem Signal.id hmem2)
        rw [List.countP_cons_of_neg _ _ (by simp [hpa])]
        exact ih hmem2 hnd.2

/-- Claim C5 (counterexample): a briefing-kind Signal 25 hours old with
trade_followed unset is left untouched by the Patrol reconciliation sweep
(no trade_followed=false, no feedback episode), because the sweep only
selects signal_type = trade_signal. -/
theorem unfollowed_briefing_cex :
    exBriefingSignal.createdAt < 90000 - 86400 ∧
    exBriefingSignal.tradeFollowed = Option.none ∧
    (checkUnfollowedSignals [exBriefingSignal] 1 90000).1 = [exBriefingSignal] ∧
    (checkUnfollowedSignals [exBriefingSignal] 1 90000).2 = [] := by
  refine ⟨by decide, rfl, by decide, by decide⟩

/-- Claim C5 (amended): for every trade_signal-kind Signal of the user
created more than 24 hours ago with trade_followed still unset, one
Patrol reconciliation sweep sets trade_followed = false and creates
exactly one feedback episode recording the unfollowed result for it. -/
theorem unfollowed_reconciliation (sigs : List Signal) (userId : ℕ) (now : ℤ) (s : Signal)
    (hmem : s ∈ sigs) (hnd : (sigs.map Signal.id).Nodup)
    (huser : s.userId = userId) (htype : s.signalType = "trade_signal")
    (hunset : s.tradeFollowed = Option.none) (hold : s.createdAt < now - 86400) :
    { s with tradeFollowed := some false } ∈ (checkUnfollowedSignals sigs userId now).1 ∧
    ((checkUnfollowedSignals sigs userId now).2.countP
        (fun e => e.signalId == s.id && e.episodeType == "feedback"
          && e.result == "unfollowed")) = 1 := by
  have helig : unfollowedEligible userId now s = true := by
    simp [unfollowedEligible, huser, htype, hunset, hold]
  constructor
  · simp only [checkUnfollowedSignals]
    exact List.mem_map.mpr ⟨s, hmem, by simp [helig]⟩
  · simp only [checkUnfollowedSignals, List.countP_map]
    have hsame : ∀ x : Signal,
        ((fun e : Episode => e.signalId == s.id && e.episodeType == "feedback"
            && e.result == "unfollowed") ∘ mkUnfollowedEpisode) x
          = (x.id == s.id) := by
      intro x
      simp [mkUnfollowedEpisode]
    rw [List.countP_congr (fun x _ => by rw [hsame x])]
    rw [List.countP_filter]
    apply countP_eq_one_of_key sigs s _ hmem hnd
    · simp [helig]
    · intro x hx
      simp only [Bool.and_eq_true, beq_iff_eq] at hx
      exact hx.1

/-- Claim C5 (witness): the sample 25-hour-old trade_signal with unset
trade_followed is marked unfollowed by the sweep and gets exactly one
feedback episode. -/
theorem unfollowed_reconciliation_witness :
    { exUnfollowedSignal with tradeFollowed := some false }
      ∈ (checkUnfollowedSignals [exUnfollowedSignal] 1 90000).1 ∧
    ((checkUnfollowedSignals [exUnfollowedSignal] 1 90000).2.countP
        (fun e => e.signalId == exUnfollowedSignal.id && e.episodeType == "feedback"
          && e.result == "unfollowed")) = 1 :=
  unfollowed_reconciliation [exUnfollowedSignal] 1 90000 exUnfollowedSignal
    (List.mem_singleton.mpr rfl) (by decide) rfl rfl rfl (by decide)

/-- Lifecycle invariant preservation: auto_transition only produces cold
streams that have been unmentioned for more than the warm threshold, so
the hypothesis of the temperature-lifecycle theorem is maintained from
one patrol to any later one (now ≤ later). -/
lemma autoTransition_cold_only_old (streams : List BaseStream) (uid : ℕ) (now later : ℤ)
    (hmono : now ≤ later)
    (hinv : ∀ s ∈ streams, s.userId = uid → s.temperature = Temp.cold →
        s.lastMentionedAt < now - warmThresholdSecs) :
    ∀ s ∈ autoTransition streams uid now, s.userId = uid → s.temperature = Temp.cold →
      s.lastMentionedAt < later - warmThresholdSecs := by
  intro s hsmem hu hcold
  simp only [autoTransition, List.mem_map] at hsmem
  obtain ⟨s0, hs0, rfl⟩ := hsmem
  by_cases hg : (s0.userId == uid) = true
  · simp only [if_pos hg] at hcold ⊢
    have hu0 : s0.userId = uid := by simpa using hg
    have hlm : (transitionWarmToCold now (transitionHotToWarm now s0)).lastMentionedAt
        = s0.lastMentionedAt := by
      unfold transitionWarmToCold transitionHotToWarm
      split_ifs <;> rfl
    rw [hlm]
    have key2 : ∀ x : BaseStream, (transitionWarmToCold now x).temperature = Temp.cold →
        x.temperature = Temp.cold ∨ x.lastMentionedAt < now - warmThresholdSecs := by
      intro x hx
      unfold transitionWarmToCold at hx
      split_ifs at hx with h
      · exact Or.inr h.2
      · exact Or.inl hx
    have key1 : ∀ x : BaseStream, (transitionHotToWarm now x).temperature = Temp.cold →
        x.temperature = Temp.cold := by
      intro x hx
      unfold transitionHotToWarm at hx
      split_ifs at hx with h
      · exact hx
    have keylm : ∀ x : BaseStream,
        (transitionHotToWarm now x).lastMentionedAt = x.lastMentionedAt := by
      intro x
      unfold transitionHotToWarm
      split_ifs <;> rfl
    rcases key2 _ hcold with hc | hb
    · have hb := hinv s0 hs0 hu0 (key1 _ hc)
      omega
    · rw [keylm] at hb
      omega
  · simp only [if_neg hg] at hcold hu ⊢
    have hb := hinv s0 hs0 hu hcold
    omega

/-- Claim C8: a touch (re-mention) makes every matching stream of the
user hot with last_mentioned_at = now; and one auto_transition call — on
a table satisfying the lifecycle invariant that a cold stream is one
unmentioned for more than the warm threshold, the only way the code ever
produces cold — leaves every stream of the user unmentioned for more
than 30 days cold (the autoflushed second pass demotes even a hot one in
the same call) and every stream unmentioned for more than 7 but at most
30 days warm. -/
theorem temperature_lifecycle (streams : List BaseStream) (userId : ℕ) (symbol : String)
    (now : ℤ) :
    (∀ s ∈ updateTemperature streams userId symbol now,
        s.userId = userId → s.symbol = some symbol →
        s.temperature = Temp.hot ∧ s.lastMentionedAt = now) ∧
    ((∀ s ∈ streams, s.userId = userId → s.temperature = Temp.cold →
        s.lastMentionedAt < now - warmThresholdSecs) →
      ∀ s ∈ autoTransition streams userId now, s.userId = userId →
        (s.lastMentionedAt < now - warmThresholdSecs → s.temperature = Temp.cold) ∧
        (s.lastMentionedAt < now - hotThresholdSecs →
          now - warmThresholdSecs ≤ s.lastMentionedAt → s.temperature = Temp.warm)) := by
  constructor
  · intro s hs hu hsym
    simp only [updateTemperature, List.mem_map] at hs
    obtain ⟨s0, _, rfl⟩ := hs
    by_cases hg : (s0.userId == userId && s0.symbol == some symbol) = true
    · simp [hg]
    · exfalso
      simp only [if_neg hg] at hu hsym
      exact hg (by simp [hu, hsym])
  · intro hinv s hs hu
    simp only [autoTransition, List.mem_map] at hs
    obtain ⟨s0, hs0, rfl⟩ := hs
    by_cases hg : (s0.userId == userId) = true
    · simp only [if_pos hg] at hu ⊢
      have hu0 : s0.userId = userId := by simpa using hg
      have hlm : (transitionWarmToCold now (transitionHotToWarm now s0)).lastMentionedAt
          = s0.lastMentionedAt := by
        unfold transitionWarmToCold transitionHotToWarm
        split_ifs <;> rfl
      rw [hlm]
      cases htemp : s0.temperature with
      | hot =>
          constructor
          · intro hwold
            have hhot : s0.lastMentionedAt < now - hotThresholdSecs := by
              simp only [warmThresholdSecs, hotThresholdSecs] at hwold ⊢
              omega
            unfold transitionHotToWarm transitionWarmToCold
            simp [htemp, hhot, hwold]
          · intro hhold hwyoung
            unfold transitionHotToWarm transitionWarmToCold
            simp [htemp, hhold, not_lt.mpr hwyoung]
      | warm =>
          constructor
          · intro hwold
            unfold transitionHotToWarm transitionWarmToCold
            simp [htemp, hwold]
          · intro _ hwyoung
            unfold transitionHotToWarm transitionWarmToCold
            simp [htemp, not_lt.mpr hwyoung]
      | cold =>
          constructor
          · intro _
            unfold transitionHotToWarm transitionWarmToCold
            simp [htemp]
          · intro _ hwyoung
            exact absurd (hinv s0 hs0 hu0 htemp) (not_lt.mpr hwyoung)
    · simp only [if_neg hg] at hu
      exact absurd (by simp [hu] : (s0.userId == userId) = true) hg

/-- Claim C8 (witness): the sample hot stream last mentioned 50 days
before the patrol instant (now = 8640000 s, mention at 4320000 s) ends
the single auto_transition call cold. -/
theorem temperature_lifecycle_witness :
    (transitionWarmToCold 8640000 (transitionHotToWarm 8640000 exAgedStream)).temperature
      = Temp.cold :=
  ((temperature_lifecycle [exAgedStream] 1 "BTC" 8640000).2 (by decide)
    (transitionWarmToCold 8640000 (transitionHotToWarm 8640000 exAgedStream))
    (by decide) (by decide)).1 (by decide)

/-- Claim C1 (divergence at the failing input): firing the sample alert
does retire it with a timestamp, and firing the sample signal trigger
through a fully successful pipeline run (collection and judge both
succeed, a Signal row is produced) stamps triggered_at but leaves
is_active true — no code path retires a signal trigger when the pipeline
completes, so it refires on every later matching tick. -/
theorem signal_trigger_not_retired_on_success :
    (fireAlert exAlertTrigger 5000).isActive = false ∧
    (fireAlert exAlertTrigger 5000).triggeredAt = some 5000 ∧
    exSignalTrigger.isActive = true ∧
    ((fireSignal exSignalTrigger exUser 5000 true (some exParsed) 21).signal).isSome = true ∧
    (fireSignal exSignalTrigger exUser 5000 true (some exParsed) 21).trigger.triggeredAt
      = some 5000 ∧
    (fireSignal exSignalTrigger exUser 5000 true (some exParsed) 21).trigger.isActive = true := by
  refine ⟨rfl, rfl, rfl, rfl, rfl, rfl⟩

/-- Claim C4 (counterexample): for the sample user already at the daily
limit (count 5, reset timestamp of the same UTC day), fire_signal still
performs Tier-2 collection before the quota check inside judge_signal
rejects the run — the trace shows collectDeep strictly before
quotaCheck, refuting that the quota is checked before any collection
work. -/
theorem quota_checked_after_collection_cex :
    (checkSignalLimit exQuotaUser 4310000).2 = false ∧
    (fireSignal exSignalTrigger exQuotaUser 4310000 true (some exParsed) 22).events
      = [PipeEvent.interimMessage, PipeEvent.collectDeep, PipeEvent.quotaCheck,
         PipeEvent.quotaNotice] ∧
    ((fireSignal exSignalTrigger exQuotaUser 4310000 true (some exParsed) 22).events.takeWhile
        (fun e => !(e == PipeEvent.quotaCheck))).contains PipeEvent.collectDeep = true ∧
    (fireSignal exSignalTrigger exQuotaUser 4310000 true (some exParsed) 22).signal
      = Option.none := by
  refine ⟨by decide, by decide, by decide, by decide⟩

/-- Claim C4 (amended): the quota is checked at the start of judge_signal
— after Tier-2 collection but before any judging work: a stale reset
timestamp first resets the count and timestamp, and an over-quota user
gets only the brief notice, no Signal row, and no count increment. -/
theorem signal_quota_semantics (u : User) (now : ℤ) (llm : Option ParsedSignal) (newId : ℕ) :
    (∀ r, u.dailySignalResetAt = some r → dayOf r < dayOf now →
        (resetIfNewDay u now).dailySignalCount = 0 ∧
        (resetIfNewDay u now).dailySignalResetAt = some now) ∧
    (PRO_DAILY_SIGNAL_LIMIT ≤ (resetIfNewDay u now).dailySignalCount →
        (judgeSignal u now llm newId).signal = Option.none ∧
        (judgeSignal u now llm newId).user.dailySignalCount
          = (resetIfNewDay u now).dailySignalCount ∧
        (judgeSignal u now llm newId).events
          = [PipeEvent.quotaCheck, PipeEvent.quotaNotice]) ∧
    (∀ t : UserTrigger,
        (fireSignal t u now true llm newId).events
          = PipeEvent.interimMessage :: PipeEvent.collectDeep
            :: (judgeSignal u now llm newId).events) := by
  refine ⟨?_, ?_, ?_⟩
  · intro r hr hday
    simp [resetIfNewDay, hr, hday]
  · intro hq
    unfold judgeSignal
    rw [if_pos hq]
    exact ⟨rfl, rfl, rfl⟩
  · intro t
    unfold fireSignal
    simp

/-- Claim C4 (witness): the over-quota sample user is rejected by
judge_signal with only the notice trace, no Signal row and an unchanged
count. -/
theorem signal_quota_semantics_witness :
    (judgeSignal exQuotaUser 4310000 (some exParsed) 22).signal = Option.none ∧
    (judgeSignal exQuotaUser 4310000 (some exParsed) 22).user.dailySignalCount
      = (resetIfNewDay exQuotaUser 4310000).dailySignalCount ∧
    (judgeSignal exQuotaUser 4310000 (some exParsed) 22).events
      = [PipeEvent.quotaCheck, PipeEvent.quotaNotice] :=
  (signal_quota_semantics exQuotaUser 4310000 (some exParsed) 22).2.1 (by decide)

/-- Claim C2: leaf-condition evaluation over a hot snapshot.  For a
trigger whose condition is a non-empty dict (with a string symbol field
for the symbol-keyed condition types):
price_above fires iff price.last ≥ value, price_below iff
price.last ≤ value, funding_above/below iff funding.rate ≥ / ≤ value,
volume_spike iff price.volume_ratio ≥ value, oi_change iff
|oi.change_pct| ≥ value, kimchi_premium iff spread/kimchi.premium_pct ≥
value, news_keyword iff some string headline of news/all contains the
keyword case-insensitively; and a missing or non-numeric current value
(extractNumber = none) evaluates to no match. -/
theorem leaf_condition_semantics (t : UserTrigger) (data e : List (String × PyVal))
    (hcond : t.condition = some (PyVal.dict e)) (hne : e ≠ []) :
    (∀ v rv tk (sym : String) (sk : Option ℚ),
        pyGet e "type" = some (PyVal.pstr "price_above" tk) →
        pyGet e "symbol" = some (PyVal.pstr sym sk) →
        pyGet e "value" = some rv → pyFloat? rv = some v →
        (∀ p, extractNumber (pyGetD data ("price/" ++ sym) (PyVal.dict [])) "last" = some p →
            checkCondition t data = decide (v ≤ p)) ∧
        (extractNumber (pyGetD data ("price/" ++ sym) (PyVal.dict [])) "last" = Option.none →
            checkCondition t data = false)) ∧
    (∀ v rv tk (sym : String) (sk : Option ℚ),
        pyGet e "type" = some (PyVal.pstr "price_below" tk) →
        pyGet e "symbol" = some (PyVal.pstr sym sk) →
        pyGet e "value" = some rv → pyFloat? rv = some v →
        (∀ p, extractNumber (pyGetD data ("price/" ++ sym) (PyVal.dict [])) "last" = some p →
            checkCondition t data = decide (p ≤ v)) ∧
        (extractNumber (pyGetD data ("price/" ++ sym) (PyVal.dict [])) "last" = Option.none →
            checkCondition t data = false)) ∧
    (∀ v rv tk (sym : String) (sk : Option ℚ),
        pyGet e "type" = some (PyVal.pstr "funding_above" tk) →
        pyGet e "symbol" = some (PyVal.pstr sym sk) →
        pyGet e "value" = some rv → pyFloat? rv = some v →
        (∀ r, extractNumber (pyGetD data ("funding/" ++ sym) (PyVal.dict [])) "rate" = some r →
            checkCondition t data = decide (v ≤ r)) ∧
        (extractNumber (pyGetD data ("funding/" ++ sym) (PyVal.dict [])) "rate" = Option.none →
            checkCondition t data = false)) ∧
    (∀ v rv tk (sym : String) (sk : Option ℚ),
        pyGet e "type" = some (PyVal.pstr "funding_below" tk) →
        pyGet e "symbol" = some (PyVal.pstr sym sk) →
        pyGet e "value" = some rv → pyFloat? rv = some v →
        (∀ r, extractNumber (pyGetD data ("funding/" ++ sym) (PyVal.dict [])) "rate" = some r →
            checkCondition t data = decide (r ≤ v)) ∧
        (extractNumber (pyGetD data ("funding/" ++ sym) (PyVal.dict [])) "rate" = Option.none →
            checkCondition t data = false)) ∧
    (∀ v rv tk (sym : String) (sk : Option ℚ),
        pyGet e "type" = some (PyVal.pstr "volume_spike" tk) →
        pyGet e "symbol" = some (PyVal.pstr sym sk) →
        pyGet e "value" = some rv → pyFloat? rv = some v →
        (∀ r, extractNumber (pyGetD data ("price/" ++ sym) (PyVal.dict []))
              "volume_ratio" = some r →
            checkCondition t data = decide (v ≤ r)) ∧
        (extractNumber (pyGetD data ("price/" ++ sym) (PyVal.dict []))
              "volume_ratio" = Option.none →
            checkCondition t data = false)) ∧
    (∀ v rv tk (sym : String) (sk : Option ℚ),
        pyGet e "type" = some (PyVal.pstr "oi_change" tk) →
        pyGet e "symbol" = some (PyVal.pstr sym sk) →
        pyGet e "value" = some rv → pyFloat? rv = some v →
        (∀ c, extractNumber (pyGetD data ("oi/" ++ sym) (PyVal.dict []))
              "change_pct" = some c →
            checkCondition t data = decide (v ≤ |c|)) ∧
        (extractNumber (pyGetD data ("oi/" ++ sym) (PyVal.dict []))
              "change_pct" = Option.none →
            checkCondition t data = false)) ∧
    (∀ v rv tk, pyGet e "type" = some (PyVal.pstr "kimchi_premium" tk) →
        pyGet e "value" = some rv → pyFloat? rv = some v →
        (∀ r, extractNumber (pyGetD data "spread/kimchi" (PyVal.dict []))
              "premium_pct" = some r →
            checkCondition t data = decide (v ≤ r)) ∧
        (extractNumber (pyGetD data "spread/kimchi" (PyVal.dict []))
              "premium_pct" = Option.none →
            checkCondition t data = false)) ∧
    (∀ (kw : String) (kn : Option ℚ) (tk : Option ℚ) (hs : List PyVal)
        (ne : List (String × PyVal)),
        pyGet e "type" = some (PyVal.pstr "news_keyword" tk) →
        pyGet e "keyword" = some (PyVal.pstr kw kn) →
        pyGet data "news/all" = some (PyVal.dict ne) →
        pyGet ne "headlines" = some (PyVal.plist hs) →
        checkCondition t data
          = hs.any (fun h =>
              match h with
              | PyVal.pstr s _ => strContains s.toLower kw.toLower
              | _ => false)) := by
  have hemp : e.isEmpty = false := by
    cases e with
    | nil => exact absurd rfl hne
    | cons a as => rfl
  have hcc : checkCondition t data = checkLeaf e data := by
    unfold checkCondition
    rw [hcond]
    simp [hemp]
  refine ⟨?_, ?_, ?_, ?_, ?_, ?_, ?_, ?_⟩
  · intro v rv tk sym sk hty hsym hval hv
    constructor
    · intro p hp
      simp only [pyGetD] at hp
      rw [hcc]
      cases rv <;> simp_all [checkLeaf, pyGetD, pyStrEq, pyFormat, pyFloat?]
    · intro hp
      simp only [pyGetD] at hp
      rw [hcc]
      cases rv <;> simp_all [checkLeaf, pyGetD, pyStrEq, pyFormat, pyFloat?]
  · intro v rv tk sym sk hty hsym hval hv
    constructor
    · intro p hp
      simp only [pyGetD] at hp
      rw [hcc]
      cases rv <;> simp_all [checkLeaf, pyGetD, pyStrEq, pyFormat, pyFloat?]
    · intro hp
      simp only [pyGetD] at hp
      rw [hcc]
      cases rv <;> simp_all [checkLeaf, pyGetD, pyStrEq, pyFormat, pyFloat?]
  · intro v rv tk sym sk hty hsym hval hv
    constructor
    · intro r hr
      simp only [pyGetD] at hr
      rw [hcc]
      cases rv <;> simp_all [checkLeaf, pyGetD, pyStrEq, pyFormat, pyFloat?]
    · intro hr
      simp only [pyGetD] at hr
      rw [hcc]
      cases rv <;> simp_all [checkLeaf, pyGetD, pyStrEq, pyFormat, pyFloat?]
  · intro v rv tk sym sk hty hsym hval hv
    constructor
    · intro r hr
      simp only [pyGetD] at hr
      rw [hcc]
      cases rv <;> simp_all [checkLeaf, pyGetD, pyStrEq, pyFormat, pyFloat?]
    · intro hr
      simp only [pyGetD] at hr
      rw [hcc]
      cases rv <;> simp_all [checkLeaf, pyGetD, pyStrEq, pyFormat, pyFloat?]
  · intro v rv tk sym sk hty hsym hval hv
    constructor
    · intro r hr
      simp only [pyGetD] at hr
      rw [hcc]
      cases rv <;> simp_all [checkLeaf, pyGetD, pyStrEq, pyFormat, pyFloat?]
    · intro hr
      simp only [pyGetD] at hr
      rw [hcc]
      cases rv <;> simp_all [checkLeaf, pyGetD, pyStrEq, pyFormat, pyFloat?]
  · intro v rv tk sym sk hty hsym hval hv
    constructor
    · intro c hc
      simp only [pyGetD] at hc
      rw [hcc]
      cases rv <;> simp_all [checkLeaf, pyGetD, pyStrEq, pyFormat, pyFloat?]
    · intro hc
      simp only [pyGetD] at hc
      rw [hcc]
      cases rv <;> simp_all [checkLeaf, pyGetD, pyStrEq, pyFormat, pyFloat?]
  · intro v rv tk hty hval hv
    constructor
    · intro r hr
      simp only [pyGetD] at hr
      rw [hcc]
      cases rv <;> simp_all [checkLeaf, pyGetD, pyStrEq, pyFormat, pyFloat?]
    · intro hr
      simp only [pyGetD] at hr
      rw [hcc]
      cases rv <;> simp_all [checkLeaf, pyGetD, pyStrEq, pyFormat, pyFloat?]
  · intro kw kn tk hs ne hty hkw hnews hheads
    rw [hcc]
    simp [checkLeaf, pyGetD, pyStrEq, pyFormat, pyIter, hty, hkw, hnews, hheads]

/-- Claim C2 (witness): the sample price_above BTC 100000 condition
matches the snapshot where price/BTC.last = 100000. -/
theorem leaf_condition_semantics_witness :
    checkCondition exAlertTrigger exHotData = decide ((100000 : ℚ) ≤ 100000) :=
  ((leaf_condition_semantics exAlertTrigger exHotData
      [("type", PyVal.pstr "price_above" Option.none),
       ("symbol", PyVal.pstr "BTC" Option.none),
       ("value", PyVal.num 100000)]
      rfl (List.cons_ne_nil _ _)).1 100000 (PyVal.num 100000) Option.none
      "BTC" Option.none rfl rfl rfl rfl).1 100000 (by decide)

end Tradefork

